import Mathlib

/-!
Shallow embedding of the storage meter in
`src/frame/contracts/src/storage/meter.rs` (Substrate contracts pallet).

Modelling conventions:
* `BalanceOf<T>` is an unsigned machine integer with saturating arithmetic;
  it is modelled as `Nat` with addition saturating at `balanceMax` (the
  `u128` maximum) and `Nat` subtraction, which already saturates at zero.
* `T::AccountId` is an opaque, equality-comparable identity: `Nat`.
* The external `Ext` trait (`reserve_limit`, `unreserve_limit`, `charge`)
  performs ledger side effects; those are made explicit as `LedgerCall`
  event lists returned next to the new states.  `reserve_limit` is the only
  fallible ledger operation; its outcome is a `canReserve` predicate given
  as a parameter, failure surfacing as `DispatchError.ReservationFailed`
  (the ledger-defined insufficient-funds condition).
* Rust `&mut` receivers become state-passing: each operation returns the
  updated meters.
* `Drop for RawMeter` becomes `RawMeter.dropCalls`, the list of ledger
  calls performed when the value is destroyed.
* The Root/Nested typestate is kept as the `origin` field (`some` exactly
  on Root, as in the source) together with the call-tree interpreter
  `MeterStack`, which only ever applies `charge` to Nested frames, as the
  Rust typestate enforces.
-/

namespace StorageMeter

abbrev AccountId := Nat

/-- Saturation bound of the balance type (`u128::MAX`). -/
def balanceMax : Nat := 2 ^ 128 - 1

/-- Model of `BalanceOf::saturating_add`. -/
def satAdd (a b : Nat) : Nat := min (a + b) balanceMax

/-- Model of `BalanceOf::saturating_sub`: `Nat` subtraction already floors at zero. -/
def satSub (a b : Nat) : Nat := a - b

/-- Model of `enum Cost<T> { Charge(BalanceOf<T>), Refund(BalanceOf<T>) }`. -/
inductive Cost where
  | Charge : Nat → Cost
  | Refund : Nat → Cost
deriving DecidableEq, Repr

/-- Model of `struct Usage<T> { charge: BalanceOf<T>, refund: BalanceOf<T> }`. -/
structure Usage where
  charge : Nat
  refund : Nat
deriving DecidableEq, Repr

/-- Model of `Usage::cost`: charge wins ties, both branches use saturating subtraction. -/
def Usage.cost (u : Usage) : Cost :=
  if u.refund ≤ u.charge then Cost.Charge (satSub u.charge u.refund)
  else Cost.Refund (satSub u.refund u.charge)

/-- Model of `Saturating::saturating_add` for `Usage<T>`: component-wise. -/
def Usage.saturatingAdd (a b : Usage) : Usage :=
  { charge := satAdd a.charge b.charge, refund := satAdd a.refund b.refund }

/-- Model of `Default` for `Usage<T>`: both totals zero. -/
def Usage.zero : Usage := { charge := 0, refund := 0 }

/-- Error kinds this module can surface (`Error::<T>::StorageExhausted` from
`charge`, and the ledger's refusal in `reserve_limit`, called
`ReservationFailed` in the interface description). -/
inductive DispatchError where
  | StorageExhausted
  | ReservationFailed
deriving DecidableEq, Repr

/-- Calls into the external `Ext` ledger trait, in source order and with the
source argument lists. `charge` is the settlement call (`E::charge`). -/
inductive LedgerCall where
  | reserve_limit (origin : AccountId) (limit : Nat)
  | unreserve_limit (origin : AccountId) (limit : Nat) (usage : Usage)
  | charge (origin : AccountId) (contract : AccountId) (amount : Cost)
deriving DecidableEq, Repr

/-- Model of `struct RawMeter<T, E, S>`: `origin` is `Some` exactly on Root meters. -/
structure RawMeter where
  origin : Option AccountId
  limit : Nat
  total_usage : Usage
  own_usage : Usage
deriving DecidableEq, Repr

/-- Model of `RawMeter::available`:
`self.limit.saturating_add(self.total_usage.refund).saturating_sub(self.total_usage.charge)`. -/
def RawMeter.available (self : RawMeter) : Nat :=
  satSub (satAdd self.limit self.total_usage.refund) self.total_usage.charge

/-- Model of `RawMeter::nested`: a fresh Nested meter limited by the parent's
available budget; the `contract` argument is unused by the source body and
the receiver is not mutated. -/
def RawMeter.nested (self : RawMeter) (_contract : AccountId) : RawMeter :=
  { origin := none
    limit := self.available
    total_usage := Usage.zero
    own_usage := Usage.zero }

/-- Model of `RawMeter::charge` (Nested only): merge the delta into both usages
first, then fail with `StorageExhausted` when the net cost is a `Charge`
strictly above the limit.  The merged state is returned in both cases. -/
def RawMeter.charge (self : RawMeter) (usage : Usage) :
    RawMeter × Except DispatchError Unit :=
  let s := { self with
    total_usage := self.total_usage.saturatingAdd usage
    own_usage := self.own_usage.saturatingAdd usage }
  match s.total_usage.cost with
  | Cost.Charge amount =>
      if s.limit < amount then (s, Except.error DispatchError.StorageExhausted)
      else (s, Except.ok ())
  | Cost.Refund _ => (s, Except.ok ())

/-- Model of `RawMeter::absorb`: settle the absorbed meter's own usage via
`E::charge`, add its total usage into the receiver, then zero the absorbed
meter's `limit`, `total_usage` and `own_usage`.  Returns the updated
receiver, the zeroed absorbed meter, and the ledger calls issued. -/
def RawMeter.absorb (self absorbed : RawMeter) (origin contract : AccountId) :
    RawMeter × RawMeter × List LedgerCall :=
  ( { self with total_usage := self.total_usage.saturatingAdd absorbed.total_usage },
    { absorbed with limit := 0, total_usage := Usage.zero, own_usage := Usage.zero },
    [LedgerCall.charge origin contract absorbed.own_usage.cost] )

/-- Model of `RawMeter::new` (Root only): ask the ledger to reserve `limit`; on
refusal propagate the ledger error and create nothing. -/
def RawMeter.new (canReserve : AccountId → Nat → Bool)
    (origin : AccountId) (limit : Nat) :
    Except DispatchError RawMeter × List LedgerCall :=
  if canReserve origin limit then
    ( Except.ok { origin := some origin, limit := limit
                  total_usage := Usage.zero, own_usage := Usage.zero },
      [LedgerCall.reserve_limit origin limit] )
  else
    (Except.error DispatchError.ReservationFailed, [LedgerCall.reserve_limit origin limit])

/-- Model of `Drop for RawMeter`: only a meter holding an origin (a Root) calls
`E::unreserve_limit`; every other meter is dropped silently. -/
def RawMeter.dropCalls (self : RawMeter) : List LedgerCall :=
  match self.origin with
  | some origin => [LedgerCall.unreserve_limit origin self.limit self.total_usage]
  | none => []

/-!
Call-tree interpreter.  The dispatcher (out of scope, §6 of the design
description) keeps one Root meter and a stack of live Nested meters, the
innermost first.  It opens a child with `nested`, feeds usage deltas to the
innermost frame with `charge` (the typestate allows `charge` on Nested
only), and closes the innermost frame either by `absorb`ing it into its
parent and dropping it (clean return) or by dropping it without absorbing
(revert).  `step`/`run` make that protocol explicit and collect every
ledger call issued along the way.
-/

/-- One Root meter plus the stack of live Nested meters, innermost first. -/
structure MeterStack where
  root : RawMeter
  stack : List RawMeter
deriving DecidableEq, Repr

/-- The operations the dispatcher can perform between Root creation and
Root teardown. -/
inductive Op where
  | openNested (contract : AccountId)
  | chargeTop (usage : Usage)
  | absorbTop (origin contract : AccountId)
  | discardTop
deriving DecidableEq, Repr

/-- The parent of the next frame to open: the innermost live frame. -/
def MeterStack.top (s : MeterStack) : RawMeter := s.stack.headD s.root

/-- Execute one dispatcher operation, returning the new state and the
ledger calls it caused.  Closing operations on an empty stack have no
frame to act on and do nothing. -/
def MeterStack.step (s : MeterStack) : Op → MeterStack × List LedgerCall
  | Op.openNested contract =>
      ({ s with stack := s.top.nested contract :: s.stack }, [])
  | Op.chargeTop usage =>
      match s.stack with
      | [] => (s, [])
      | c :: rest => ({ s with stack := (c.charge usage).1 :: rest }, [])
  | Op.absorbTop origin contract =>
      match s.stack with
      | [] => (s, [])
      | c :: [] =>
          let r := s.root.absorb c origin contract
          ({ root := r.1, stack := [] }, r.2.2 ++ r.2.1.dropCalls)
      | c :: p :: rest =>
          let r := p.absorb c origin contract
          ({ s with stack := r.1 :: rest }, r.2.2 ++ r.2.1.dropCalls)
  | Op.discardTop =>
      match s.stack with
      | [] => (s, [])
      | c :: rest => ({ s with stack := rest }, c.dropCalls)

/-- Execute a list of dispatcher operations in order. -/
def MeterStack.run (s : MeterStack) : List Op → MeterStack × List LedgerCall
  | [] => (s, [])
  | op :: ops =>
      let r := s.step op
      let r' := r.1.run ops
      (r'.1, r.2 ++ r'.2)

/-- Tear the whole tree down: any still-open Nested frames are dropped
(innermost first), then the Root itself is dropped. -/
def MeterStack.destroyCalls (s : MeterStack) : List LedgerCall :=
  (s.stack.map RawMeter.dropCalls).flatten ++ s.root.dropCalls

/-- Recognizer for the Root-teardown ledger call, used to count releases. -/
def LedgerCall.isUnreserve : LedgerCall → Bool
  | LedgerCall.unreserve_limit _ _ _ => true
  | _ => false

/-! Helper lemmas shared by the claim theorems. -/

/-- The function `charge` always returns the merged meter, whether or not it errors. -/
theorem RawMeter.charge_fst (m : RawMeter) (u : Usage) :
    (m.charge u).1 = { m with
      total_usage := m.total_usage.saturatingAdd u
      own_usage := m.own_usage.saturatingAdd u } := by
  show (match _ with
    | Cost.Charge amount =>
      if _ < amount then (_, Except.error DispatchError.StorageExhausted)
      else (_, Except.ok ())
    | Cost.Refund _ => (_, Except.ok ())).1 = _
  split
  · split <;> rfl
  · rfl

/-- The function `charge` never changes the typestate-revealing `origin` field. -/
theorem RawMeter.charge_origin (m : RawMeter) (u : Usage) :
    ((m.charge u).1).origin = m.origin := by
  rw [RawMeter.charge_fst]

/-- Dropping a meter without an origin (a Nested meter) issues no ledger
call. -/
theorem RawMeter.dropCalls_none (m : RawMeter) (h : m.origin = none) :
    m.dropCalls = [] := by
  unfold RawMeter.dropCalls
  rw [h]

/-- Dropping a meter holding an origin (a Root meter) issues exactly the
`unreserve_limit` call. -/
theorem RawMeter.dropCalls_some (m : RawMeter) (o : AccountId)
    (h : m.origin = some o) :
    m.dropCalls = [LedgerCall.unreserve_limit o m.limit m.total_usage] := by
  unfold RawMeter.dropCalls
  rw [h]

/-- A successful `new` needed a willing ledger and produced the Root with
the requested limit and zero usage. -/
theorem RawMeter.new_ok (canReserve : AccountId → Nat → Bool)
    (o : AccountId) (l : Nat) (r0 : RawMeter)
    (h : (RawMeter.new canReserve o l).1 = Except.ok r0) :
    canReserve o l = true ∧
      r0 = { origin := some o, limit := l
             total_usage := Usage.zero, own_usage := Usage.zero } := by
  unfold RawMeter.new at h
  rcases hcr : canReserve o l with _ | _ <;> rw [hcr] at h <;> simp at h
  exact ⟨rfl, h.symm⟩

/-- Iterate `charge` over a list of usage deltas, keeping only the state. -/
def chargeAll (m : RawMeter) : List Usage → RawMeter
  | [] => m
  | u :: us => chargeAll (m.charge u).1 us

theorem chargeAll_origin (us : List Usage) (m : RawMeter) :
    (chargeAll m us).origin = m.origin := by
  induction us generalizing m with
  | nil => rfl
  | cons u us ih => rw [chargeAll, ih, RawMeter.charge_origin]

/-- Running a concatenation of op lists runs them in sequence. -/
theorem MeterStack.run_append (s : MeterStack) (a b : List Op) :
    s.run (a ++ b) = (((s.run a).1.run b).1, (s.run a).2 ++ ((s.run a).1.run b).2) := by
  induction a generalizing s with
  | nil => simp [MeterStack.run]
  | cons op ops ih => simp [MeterStack.run, ih, List.append_assoc]

/-- Well-formedness of a live call tree: the Root meter holds the funding
origin, and every live Nested meter holds none (as `nested` builds them). -/
def MeterStack.Inv (o : AccountId) (s : MeterStack) : Prop :=
  s.root.origin = some o ∧ ∀ f ∈ s.stack, f.origin = none

/-- One dispatcher step preserves well-formedness and never emits an
`unreserve_limit` ledger call. -/
theorem MeterStack.step_inv (o : AccountId) (s : MeterStack) (op : Op)
    (h : s.Inv o) :
    (s.step op).1.Inv o ∧ ((s.step op).2).filter LedgerCall.isUnreserve = [] := by
  obtain ⟨hr, hs⟩ := h
  obtain ⟨root, stack⟩ := s
  cases op with
  | openNested x =>
      refine ⟨⟨hr, ?_⟩, rfl⟩
      intro f hf
      rcases List.mem_cons.mp hf with hf | hf
      · rw [hf]; rfl
      · exact hs f hf
  | chargeTop u =>
      cases stack with
      | nil => exact ⟨⟨hr, hs⟩, rfl⟩
      | cons c rest =>
          refine ⟨⟨hr, ?_⟩, rfl⟩
          intro f hf
          rcases List.mem_cons.mp hf with hf | hf
          · rw [hf, RawMeter.charge_origin]
            exact hs c (List.mem_cons_self c rest)
          · exact hs f (List.mem_cons_of_mem c hf)
  | absorbTop o' x =>
      cases stack with
      | nil => exact ⟨⟨hr, hs⟩, rfl⟩
      | cons c rest =>
          have hc : c.origin = none := hs c (List.mem_cons_self c rest)
          cases rest with
          | nil =>
              refine ⟨⟨hr, fun f hf => absurd hf (List.not_mem_nil f)⟩, ?_⟩
              show List.filter _
                (_ ++ ((root.absorb c o' x).2.1).dropCalls) = []
              rw [RawMeter.dropCalls_none ((root.absorb c o' x).2.1) hc]
              rfl
          | cons p rest' =>
              have hp : p.origin = none :=
                hs p (List.mem_cons_of_mem c (List.mem_cons_self p rest'))
              refine ⟨⟨hr, ?_⟩, ?_⟩
              · intro f hf
                rcases List.mem_cons.mp hf with hf | hf
                · rw [hf]; exact hp
                · exact hs f
                    (List.mem_cons_of_mem c (List.mem_cons_of_mem p hf))
              · show List.filter _
                  (_ ++ ((p.absorb c o' x).2.1).dropCalls) = []
                rw [RawMeter.dropCalls_none ((p.absorb c o' x).2.1) hc]
                rfl
  | discardTop =>
      cases stack with
      | nil => exact ⟨⟨hr, hs⟩, rfl⟩
      | cons c rest =>
          have hc : c.origin = none := hs c (List.mem_cons_self c rest)
          refine ⟨⟨hr, fun f hf => hs f (List.mem_cons_of_mem c hf)⟩, ?_⟩
          show List.filter _ c.dropCalls = []
          rw [RawMeter.dropCalls_none _ hc]
          rfl

/-- A whole run preserves well-formedness and never emits
`unreserve_limit`. -/
theorem MeterStack.run_inv (o : AccountId) (ops : List Op) (s : MeterStack)
    (h : s.Inv o) :
    (s.run ops).1.Inv o ∧ ((s.run ops).2).filter LedgerCall.isUnreserve = [] := by
  induction ops generalizing s with
  | nil => exact ⟨h, rfl⟩
  | cons op ops ih =>
      obtain ⟨h1, h2⟩ := s.step_inv o op h
      obtain ⟨h3, h4⟩ := ih (s.step op).1 h1
      exact ⟨h3, by simp [MeterStack.run, List.filter_append, h2, h4]⟩

/-- No dispatcher step touches the Root meter's `own_usage`. -/
theorem MeterStack.step_root_own (s : MeterStack) (op : Op) :
    ((s.step op).1).root.own_usage = s.root.own_usage := by
  cases op with
  | openNested x => rfl
  | chargeTop u => rcases hst : s.stack with _ | ⟨c, rest⟩ <;> rw [MeterStack.step, hst]
  | absorbTop o' x =>
      rcases hst : s.stack with _ | ⟨c, rest⟩
      · rw [MeterStack.step, hst]
      · rcases rest with _ | ⟨p, rest'⟩ <;> rw [MeterStack.step, hst] <;> rfl
  | discardTop => rcases hst : s.stack with _ | ⟨c, rest⟩ <;> rw [MeterStack.step, hst]

/-- No run of dispatcher operations touches the Root meter's `own_usage`. -/
theorem MeterStack.run_root_own (ops : List Op) (s : MeterStack) :
    ((s.run ops).1).root.own_usage = s.root.own_usage := by
  induction ops generalizing s with
  | nil => rfl
  | cons op ops ih => rw [MeterStack.run, ih, MeterStack.step_root_own]

/-- Charging the innermost frame repeatedly only rewrites that frame and
emits no ledger call. -/
theorem MeterStack.run_chargeTops (us : List Usage) (root c : RawMeter)
    (rest : List RawMeter) :
    MeterStack.run ⟨root, c :: rest⟩ (us.map Op.chargeTop) =
      (⟨root, chargeAll c us :: rest⟩, []) := by
  induction us generalizing c with
  | nil => rfl
  | cons u us ih => rw [List.map_cons, MeterStack.run, chargeAll]; exact ih _

/-- Dropping only originless (Nested) frames issues no ledger call. -/
theorem stack_dropCalls_nil (L : List RawMeter) (h : ∀ f ∈ L, f.origin = none) :
    (L.map RawMeter.dropCalls).flatten = [] := by
  induction L with
  | nil => rfl
  | cons f L ih =>
      rw [List.map_cons, List.flatten_cons,
        RawMeter.dropCalls_none f (h f (List.mem_cons_self f L)),
        List.nil_append]
      exact ih fun g hg => h g (List.mem_cons_of_mem f hg)

/-! The claim theorems. -/

/-- Claim C1 (code_bug evidence): at the failing input — Root of limit 100,
one Nested child opened, `charge {charge := 60, refund := 0}` on the child —
the Root ancestor's `total_usage` is still zero after `charge` returns,
while the claim requires the delta to have been added to every ancestor's
`total_usage` immediately; the delta sits only in the child. -/
theorem claim1_charge_leaves_ancestors_untouched :
    ((MeterStack.run
        ⟨⟨some 0, 100, Usage.zero, Usage.zero⟩, []⟩
        [Op.openNested 1, Op.chargeTop ⟨60, 0⟩]).1.root.total_usage
      = Usage.zero) ∧
    ((MeterStack.run
        ⟨⟨some 0, 100, Usage.zero, Usage.zero⟩, []⟩
        [Op.openNested 1, Op.chargeTop ⟨60, 0⟩]).1.stack
      = [⟨none, 100, ⟨60, 0⟩, ⟨60, 0⟩⟩]) ∧
    Usage.zero ≠ (⟨60, 0⟩ : Usage) := by
  decide

/-- Claim C2 (counterexample): the only `absorb` the code has takes no
`persist` flag; after the child charged `{30, 0}`, absorbing it issues a
settlement call and leaves the parent's `total_usage` different from its
pre-open value, so no mode of `absorb` subtracts the contribution and stays
silent towards the ledger. -/
theorem claim2_absorb_is_not_rollback :
    ((⟨some 0, 100, Usage.zero, Usage.zero⟩ : RawMeter).absorb
        (((⟨some 0, 100, Usage.zero, Usage.zero⟩ : RawMeter).nested 1).charge
          ⟨30, 0⟩).1 0 1).2.2 ≠ [] ∧
    ((⟨some 0, 100, Usage.zero, Usage.zero⟩ : RawMeter).absorb
        (((⟨some 0, 100, Usage.zero, Usage.zero⟩ : RawMeter).nested 1).charge
          ⟨30, 0⟩).1 0 1).1.total_usage ≠ Usage.zero := by
  decide

/-- Claim C2 (amended): a reverted child is unwound by dropping it without
absorbing; because `charge` never modifies ancestors, after opening a child
and any sequence of `charge` calls on it, the discard path returns the call
tree to exactly its pre-open state and issues no ledger call at all. -/
theorem claim2_discard_restores_ancestors (s : MeterStack) (x : AccountId)
    (us : List Usage) :
    s.run (Op.openNested x :: (us.map Op.chargeTop ++ [Op.discardTop]))
      = (s, []) := by
  obtain ⟨root, stack⟩ := s
  have hco : (chargeAll ((stack.headD root).nested x) us).origin = none := by
    rw [chargeAll_origin]; rfl
  show ((MeterStack.run
      ⟨root, (stack.headD root).nested x :: stack⟩
      (us.map Op.chargeTop ++ [Op.discardTop])).1,
    [] ++ (MeterStack.run
      ⟨root, (stack.headD root).nested x :: stack⟩
      (us.map Op.chargeTop ++ [Op.discardTop])).2) = _
  rw [MeterStack.run_append, MeterStack.run_chargeTops]
  show ((⟨root, stack⟩ : MeterStack),
    [] ++ ([] ++ ((chargeAll ((stack.headD root).nested x) us).dropCalls ++ [])))
      = ((⟨root, stack⟩ : MeterStack), [])
  rw [RawMeter.dropCalls_none _ hco]
  rfl

/-- Claim C3 (counterexample): absorbing a child whose `total_usage` is
`{30, 0}` into a parent whose `total_usage` is `{5, 0}` changes the
parent's `total_usage` (to `{35, 0}`), refuting the part of the claim that
says the parent's `total_usage` is not changed by the absorb step. -/
theorem claim3_absorb_changes_parent_total :
    ((⟨some 0, 100, ⟨5, 0⟩, Usage.zero⟩ : RawMeter).absorb
        ⟨none, 95, ⟨30, 0⟩, ⟨30, 0⟩⟩ 0 1).1.total_usage
      ≠ (⟨5, 0⟩ : Usage) := by
  decide

/-- Claim C3 (amended): `absorb` invokes the settlement call exactly once,
with the given origin and contract and `net_cost(own_usage)` of the
absorbed frame, and in the same step adds the absorbed frame's
`total_usage` into the parent's `total_usage` — the code's sole propagation
point — leaving the parent's other fields unchanged. -/
theorem claim3_absorb_settles_once_and_merges (p c : RawMeter)
    (o x : AccountId) :
    (p.absorb c o x).2.2 = [LedgerCall.charge o x c.own_usage.cost] ∧
    ((p.absorb c o x).2.2).length = 1 ∧
    (p.absorb c o x).1.total_usage
      = p.total_usage.saturatingAdd c.total_usage ∧
    (p.absorb c o x).1.origin = p.origin ∧
    (p.absorb c o x).1.limit = p.limit ∧
    (p.absorb c o x).1.own_usage = p.own_usage :=
  ⟨rfl, rfl, rfl, rfl, rfl, rfl⟩

/-- Claim C4: `charge` merges the delta into both `total_usage` and
`own_usage` and keeps the merged state whether it succeeds or fails; it
errors with `StorageExhausted` exactly when the merged total's net cost is
a `Charge` strictly above the frame's limit; and `new` — the only other
fallible operation — never raises `StorageExhausted`. -/
theorem claim4_charge_exhaustion_iff :
    (∀ (m : RawMeter) (u : Usage),
      (m.charge u).1.total_usage = m.total_usage.saturatingAdd u ∧
      (m.charge u).1.own_usage = m.own_usage.saturatingAdd u ∧
      (m.charge u).1.limit = m.limit ∧
      ((m.charge u).2 = Except.error DispatchError.StorageExhausted ↔
        ∃ amount, (m.total_usage.saturatingAdd u).cost = Cost.Charge amount ∧
          m.limit < amount)) ∧
    ∀ (canReserve : AccountId → Nat → Bool) (o : AccountId) (l : Nat),
      (RawMeter.new canReserve o l).1
        ≠ Except.error DispatchError.StorageExhausted := by
  constructor
  · intro m u
    refine ⟨by rw [RawMeter.charge_fst], by rw [RawMeter.charge_fst],
      by rw [RawMeter.charge_fst], ?_⟩
    rcases hcost : (m.total_usage.saturatingAdd u).cost with a | a
    · by_cases hl : m.limit < a
      · simp [RawMeter.charge, hcost, hl]
      · simp [RawMeter.charge, hcost, hl]
    · simp [RawMeter.charge, hcost]
  · intro canReserve o l
    rcases h : canReserve o l <;> simp [RawMeter.new, h]

/-- Claim C4 witness: on a frame of limit 50 with zero usage, charging
`{60, 0}` fails with `StorageExhausted`. -/
theorem claim4_witness :
    ((⟨none, 50, Usage.zero, Usage.zero⟩ : RawMeter).charge ⟨60, 0⟩).2
      = Except.error DispatchError.StorageExhausted :=
  ((claim4_charge_exhaustion_iff.1
    ⟨none, 50, Usage.zero, Usage.zero⟩ ⟨60, 0⟩).2.2.2).mpr
    ⟨60, by decide, by decide⟩

/-- Claim C5: a freshly opened child has exactly the parent's available
budget as its limit — `limit` saturating-plus `total_usage.refund`
saturating-minus `total_usage.charge`, hence never above the available
budget — zero usage, and no origin. -/
theorem claim5_nested_limit_is_available (m : RawMeter) (x : AccountId) :
    (m.nested x).limit = m.available ∧
    m.available = satSub (satAdd m.limit m.total_usage.refund)
      m.total_usage.charge ∧
    (m.nested x).limit ≤ m.available ∧
    (m.nested x).total_usage = Usage.zero ∧
    (m.nested x).own_usage = Usage.zero ∧
    (m.nested x).origin = none :=
  ⟨rfl, rfl, le_refl _, rfl, rfl, rfl⟩

/-- Claim C6: over the Root's whole life — creation, any sequence of
dispatcher operations, then full teardown — exactly one `unreserve_limit`
call is issued, carrying the Root's origin and its `limit` and
`total_usage` at teardown; and dropping the live Nested frames during
teardown issues no release call. -/
theorem claim6_root_release_exactly_once
    (canReserve : AccountId → Nat → Bool) (o : AccountId) (l : Nat)
    (r0 : RawMeter) (h : (RawMeter.new canReserve o l).1 = Except.ok r0)
    (ops : List Op) :
    (((MeterStack.run ⟨r0, []⟩ ops).2
        ++ (MeterStack.run ⟨r0, []⟩ ops).1.destroyCalls).filter
          LedgerCall.isUnreserve
      = [LedgerCall.unreserve_limit o
          (MeterStack.run ⟨r0, []⟩ ops).1.root.limit
          (MeterStack.run ⟨r0, []⟩ ops).1.root.total_usage]) ∧
    ∀ f ∈ (MeterStack.run ⟨r0, []⟩ ops).1.stack, f.dropCalls = [] := by
  obtain ⟨hcr, hr0⟩ := RawMeter.new_ok canReserve o l r0 h
  have hinv : (MeterStack.mk r0 []).Inv o := by
    rw [hr0]
    exact ⟨rfl, fun f hf => absurd hf (List.not_mem_nil f)⟩
  obtain ⟨⟨hro, hst⟩, hev⟩ := MeterStack.run_inv o ops ⟨r0, []⟩ hinv
  constructor
  · rw [List.filter_append, hev, List.nil_append, MeterStack.destroyCalls,
      stack_dropCalls_nil _ hst, List.nil_append,
      RawMeter.dropCalls_some _ o hro]
    rfl
  · intro f hf
    exact RawMeter.dropCalls_none f (hst f hf)

/-- Claim C6 witness: a Root of limit 100 that opened, charged and absorbed
one child releases exactly once, with its final `limit` and
`total_usage`. -/
theorem claim6_witness :
    (((MeterStack.run ⟨⟨some 0, 100, Usage.zero, Usage.zero⟩, []⟩
          [Op.openNested 1, Op.chargeTop ⟨30, 0⟩, Op.absorbTop 0 1]).2
        ++ (MeterStack.run ⟨⟨some 0, 100, Usage.zero, Usage.zero⟩, []⟩
          [Op.openNested 1, Op.chargeTop ⟨30, 0⟩, Op.absorbTop 0 1]).1.destroyCalls).filter
          LedgerCall.isUnreserve
      = [LedgerCall.unreserve_limit 0
          (MeterStack.run ⟨⟨some 0, 100, Usage.zero, Usage.zero⟩, []⟩
            [Op.openNested 1, Op.chargeTop ⟨30, 0⟩, Op.absorbTop 0 1]).1.root.limit
          (MeterStack.run ⟨⟨some 0, 100, Usage.zero, Usage.zero⟩, []⟩
            [Op.openNested 1, Op.chargeTop ⟨30, 0⟩, Op.absorbTop 0 1]).1.root.total_usage]) ∧
    ∀ f ∈ (MeterStack.run ⟨⟨some 0, 100, Usage.zero, Usage.zero⟩, []⟩
        [Op.openNested 1, Op.chargeTop ⟨30, 0⟩, Op.absorbTop 0 1]).1.stack,
      f.dropCalls = [] :=
  claim6_root_release_exactly_once (fun _ _ => true) 0 100
    ⟨some 0, 100, Usage.zero, Usage.zero⟩ rfl
    [Op.openNested 1, Op.chargeTop ⟨30, 0⟩, Op.absorbTop 0 1]

/-- Claim C7: a successfully created Root starts with zero `own_usage`, and
its `own_usage` is still zero after any sequence of dispatcher operations,
in particular at the moment the Root is destroyed. -/
theorem claim7_root_own_usage_always_zero
    (canReserve : AccountId → Nat → Bool) (o : AccountId) (l : Nat)
    (r0 : RawMeter) (h : (RawMeter.new canReserve o l).1 = Except.ok r0)
    (ops : List Op) :
    r0.own_usage = Usage.zero ∧
    ((MeterStack.run ⟨r0, []⟩ ops).1).root.own_usage = Usage.zero := by
  obtain ⟨hcr, hr0⟩ := RawMeter.new_ok canReserve o l r0 h
  constructor
  · rw [hr0]
  · rw [MeterStack.run_root_own]
    show r0.own_usage = Usage.zero
    rw [hr0]

/-- Claim C7 witness: the Root's `own_usage` is zero after an
open/charge/absorb round trip. -/
theorem claim7_witness :
    (⟨some 0, 100, Usage.zero, Usage.zero⟩ : RawMeter).own_usage = Usage.zero ∧
    ((MeterStack.run ⟨⟨some 0, 100, Usage.zero, Usage.zero⟩, []⟩
        [Op.openNested 1, Op.chargeTop ⟨30, 0⟩, Op.absorbTop 0 1]).1).root.own_usage
      = Usage.zero :=
  claim7_root_own_usage_always_zero (fun _ _ => true) 0 100
    ⟨some 0, 100, Usage.zero, Usage.zero⟩ rfl
    [Op.openNested 1, Op.chargeTop ⟨30, 0⟩, Op.absorbTop 0 1]

/-- Claim C8: `new` always puts exactly the requested limit to the ledger
for reservation; it fails with `ReservationFailed` precisely when the
ledger refuses, and on success the returned Root carries the origin, the
limit and zero usage. -/
theorem claim8_new_reserves_limit (canReserve : AccountId → Nat → Bool)
    (o : AccountId) (l : Nat) :
    (RawMeter.new canReserve o l).2 = [LedgerCall.reserve_limit o l] ∧
    ((RawMeter.new canReserve o l).1
        = Except.error DispatchError.ReservationFailed ↔
      canReserve o l = false) ∧
    (canReserve o l = true →
      (RawMeter.new canReserve o l).1
        = Except.ok ⟨some o, l, Usage.zero, Usage.zero⟩) := by
  rcases h : canReserve o l <;> simp [RawMeter.new, h]

/-- Claim C8 witness: with a refusing ledger, `new` fails with
`ReservationFailed`. -/
theorem claim8_witness :
    (RawMeter.new (fun _ _ => false) 0 5).1
      = Except.error DispatchError.ReservationFailed :=
  ((claim8_new_reserves_limit (fun _ _ => false) 0 5).2.1).mpr rfl

/-- Claim C9: `net_cost` is `Charge(charge − refund)` when
`charge ≥ refund`, `Refund(refund − charge)` otherwise, the tie resolving
to `Charge 0`; and a fresh frame charged `{0, 50}` then `{50, 0}` ends at
net cost `Charge 0`. -/
theorem claim9_net_cost_tie_breaks_to_charge (u : Usage) :
    (u.refund ≤ u.charge → u.cost = Cost.Charge (u.charge - u.refund)) ∧
    (u.charge < u.refund → u.cost = Cost.Refund (u.refund - u.charge)) ∧
    (u.charge = u.refund → u.cost = Cost.Charge 0) ∧
    ∀ (m : RawMeter) (x : AccountId),
      (((m.nested x).charge ⟨0, 50⟩).1.charge ⟨50, 0⟩).1.total_usage.cost
        = Cost.Charge 0 := by
  refine ⟨?_, ?_, ?_, ?_⟩
  · intro h
    unfold Usage.cost satSub
    rw [if_pos h]
  · intro h
    unfold Usage.cost satSub
    rw [if_neg (not_le.mpr h)]
  · intro h
    unfold Usage.cost satSub
    rw [if_pos (le_of_eq h.symm), h, Nat.sub_self]
  · intro m x
    rw [RawMeter.charge_fst, RawMeter.charge_fst]
    show ((Usage.zero.saturatingAdd ⟨0, 50⟩).saturatingAdd ⟨50, 0⟩).cost
      = Cost.Charge 0
    decide

/-- Claim C9 witness: a usage of 70 charged and 20 refunded nets to
`Charge 50`. -/
theorem claim9_witness : (⟨70, 20⟩ : Usage).cost = Cost.Charge 50 :=
  (claim9_net_cost_tie_breaks_to_charge ⟨70, 20⟩).1 (by decide)

/-- Component-wise saturating addition of zero is the identity on
in-range usages. -/
theorem Usage.saturatingAdd_zero (u : Usage) (h1 : u.charge ≤ balanceMax)
    (h2 : u.refund ≤ balanceMax) : u.saturatingAdd Usage.zero = u := by
  cases u with
  | mk c r =>
      unfold Usage.saturatingAdd satAdd Usage.zero
      simp only [Usage.mk.injEq, Nat.add_zero]
      exact ⟨min_eq_left h1, min_eq_left h2⟩

/-- Claim C10: after `absorb`, the absorbed frame's `limit`, `total_usage`
and `own_usage` are zero, its teardown issues no ledger call, and a second
absorb of the zeroed frame neither changes any parent's `total_usage` nor
settles anything beyond a `Charge 0`. -/
theorem claim10_absorbed_frame_is_reset (p c : RawMeter) (o x : AccountId)
    (hc : c.origin = none) (q : RawMeter) (o' x' : AccountId)
    (hq1 : q.total_usage.charge ≤ balanceMax)
    (hq2 : q.total_usage.refund ≤ balanceMax) :
    ((p.absorb c o x).2.1).limit = 0 ∧
    ((p.absorb c o x).2.1).total_usage = Usage.zero ∧
    ((p.absorb c o x).2.1).own_usage = Usage.zero ∧
    ((p.absorb c o x).2.1).dropCalls = [] ∧
    (q.absorb ((p.absorb c o x).2.1) o' x').1.total_usage = q.total_usage ∧
    (q.absorb ((p.absorb c o x).2.1) o' x').2.2
      = [LedgerCall.charge o' x' (Cost.Charge 0)] := by
  refine ⟨rfl, rfl, rfl, RawMeter.dropCalls_none _ hc, ?_, rfl⟩
  show q.total_usage.saturatingAdd Usage.zero = q.total_usage
  exact Usage.saturatingAdd_zero q.total_usage hq1 hq2

/-- Claim C10 witness: a concrete absorbed child is fully zeroed, drops
silently, and re-absorbing it is a no-op beyond a `Charge 0` settlement. -/
theorem claim10_witness :
    (((⟨some 0, 100, Usage.zero, Usage.zero⟩ : RawMeter).absorb
        ⟨none, 40, ⟨30, 0⟩, ⟨30, 0⟩⟩ 0 1).2.1).limit = 0 ∧
    (((⟨some 0, 100, Usage.zero, Usage.zero⟩ : RawMeter).absorb
        ⟨none, 40, ⟨30, 0⟩, ⟨30, 0⟩⟩ 0 1).2.1).total_usage = Usage.zero ∧
    (((⟨some 0, 100, Usage.zero, Usage.zero⟩ : RawMeter).absorb
        ⟨none, 40, ⟨30, 0⟩, ⟨30, 0⟩⟩ 0 1).2.1).own_usage = Usage.zero ∧
    (((⟨some 0, 100, Usage.zero, Usage.zero⟩ : RawMeter).absorb
        ⟨none, 40, ⟨30, 0⟩, ⟨30, 0⟩⟩ 0 1).2.1).dropCalls = [] ∧
    ((⟨some 0, 9, ⟨7, 2⟩, Usage.zero⟩ : RawMeter).absorb
        (((⟨some 0, 100, Usage.zero, Usage.zero⟩ : RawMeter).absorb
          ⟨none, 40, ⟨30, 0⟩, ⟨30, 0⟩⟩ 0 1).2.1) 2 3).1.total_usage
      = (⟨7, 2⟩ : Usage) ∧
    ((⟨some 0, 9, ⟨7, 2⟩, Usage.zero⟩ : RawMeter).absorb
        (((⟨some 0, 100, Usage.zero, Usage.zero⟩ : RawMeter).absorb
          ⟨none, 40, ⟨30, 0⟩, ⟨30, 0⟩⟩ 0 1).2.1) 2 3).2.2
      = [LedgerCall.charge 2 3 (Cost.Charge 0)] :=
  claim10_absorbed_frame_is_reset
    ⟨some 0, 100, Usage.zero, Usage.zero⟩ ⟨none, 40, ⟨30, 0⟩, ⟨30, 0⟩⟩ 0 1 rfl
    ⟨some 0, 9, ⟨7, 2⟩, Usage.zero⟩ 2 3 (by decide) (by decide)

end StorageMeter
